import Mathlib

/-!
Verification of the weighted-aggregation core of the Scottish Budget
2026-27 analysis repository (`scottish_budget_data` package and the
mansion-tax constituency script), as a shallow embedding in Lean 4.

Numeric values are modelled as rationals.  Python / numpy floating point
division, whose behaviour at a zero denominator (NaN / ±inf) matters for
several properties, is modelled explicitly by the type `PyFloat` below:
a value is either a finite rational, `pinf` / `ninf` (the numpy results
of dividing a nonzero value by zero) or `nan` (the result of `0.0/0.0`
and of any arithmetic on `nan`).
-/

/-- Result of a numpy floating point computation: a finite (rational)
value, positive or negative infinity, or NaN. -/
inductive PyFloat where
  | fin (q : ℚ)
  | pinf
  | ninf
  | nan
  deriving DecidableEq, Repr

namespace PyFloat

/-- numpy float division of two finite values: `a / b`.  For `b = 0` numpy
yields `inf`, `-inf` or `nan` according to the sign of `a` (our zeros are
exact, hence always `+0`). -/
def qdiv (a b : ℚ) : PyFloat :=
  if b = 0 then
    if 0 < a then pinf else if a < 0 then ninf else nan
  else fin (a / b)

/-- numpy float division on possibly non-finite operands. -/
def div : PyFloat → PyFloat → PyFloat
  | fin a, fin b => qdiv a b
  | fin _, pinf => fin 0
  | fin _, ninf => fin 0
  | pinf, fin b => if 0 < b then pinf else if b < 0 then ninf else pinf
  | ninf, fin b => if 0 < b then ninf else if b < 0 then pinf else ninf
  | pinf, pinf => nan
  | pinf, ninf => nan
  | ninf, pinf => nan
  | ninf, ninf => nan
  | nan, _ => nan
  | _, nan => nan

/-- numpy float subtraction on possibly non-finite operands. -/
def sub : PyFloat → PyFloat → PyFloat
  | fin a, fin b => fin (a - b)
  | fin _, pinf => ninf
  | fin _, ninf => pinf
  | pinf, fin _ => pinf
  | ninf, fin _ => ninf
  | pinf, pinf => nan
  | pinf, ninf => pinf
  | ninf, pinf => ninf
  | ninf, ninf => nan
  | nan, _ => nan
  | _, nan => nan

/-- Multiplication by the (positive) literal `100`, as in `x * 100`. -/
def mul100 : PyFloat → PyFloat
  | fin a => fin (a * 100)
  | pinf => pinf
  | ninf => ninf
  | nan => nan

/-- The Python comparison `x > 0` on a float: `False` on NaN, `True` on
`+inf`. -/
def gt0 : PyFloat → Bool
  | fin a => decide (0 < a)
  | pinf => true
  | ninf => false
  | nan => false

theorem qdiv_of_ne_zero {b : ℚ} (a : ℚ) (h : b ≠ 0) : qdiv a b = fin (a / b) := by
  simp [qdiv, h]

theorem qdiv_zero_zero : qdiv 0 0 = nan := by
  simp [qdiv]

end PyFloat

/-!
## The decile DataFrame

`DistributionalImpactCalculator.calculate` builds a pandas DataFrame with
columns `baseline_income`, `reformed_income`, `household_weight` and
`income_decile` (the Scotland-filtered per-household arrays), adds
`income_change = reformed_income - baseline_income` and coerces
`income_decile` by `.clip(1, 10)`.  We model the frame as a list of rows.
-/

/-- One row of the decile DataFrame built in
`DistributionalImpactCalculator.calculate`. -/
structure Row where
  baseline_income : ℚ
  reformed_income : ℚ
  household_weight : ℚ
  income_decile : ℤ
  deriving DecidableEq, Repr

/-- The `income_change` column: `reformed_income - baseline_income`. -/
def incomeChange (r : Row) : ℚ :=
  r.reformed_income - r.baseline_income

/-- Source `pd.to_numeric(...).clip(1, 10)` applied to the decile column. -/
def clipDecile (d : ℤ) : ℤ :=
  max 1 (min 10 d)

/-- Source `df["household_weight"].sum()`. -/
def totalWeight (df : List Row) : ℚ :=
  (df.map (fun r => r.household_weight)).sum

/-- Source `(df[col] * df["household_weight"]).sum()` for a column `f`. -/
def wsum (f : Row → ℚ) (df : List Row) : ℚ :=
  (df.map (fun r => f r * r.household_weight)).sum

/-!
## WinnersLosersCalculator

`calculate` computes, over the decile DataFrame:
  `total_weight = df["household_weight"].sum()`
  `winners = df[df["income_change"] > 1]["household_weight"].sum()`
  `losers  = df[df["income_change"] < -1]["household_weight"].sum()`
  `unchanged = total_weight - winners - losers`
and emits three rows with values `(winners/total)*100`, `(losers/total)*100`,
`(unchanged/total)*100`.
-/

/-- Weighted population of winners: rows with `income_change > 1`. -/
def winnersWeight (df : List Row) : ℚ :=
  totalWeight (df.filter (fun r => 1 < incomeChange r))

/-- Weighted population of losers: rows with `income_change < -1`. -/
def losersWeight (df : List Row) : ℚ :=
  totalWeight (df.filter (fun r => incomeChange r < -1))

/-- Source `unchanged = total_weight - winners - losers`, as computed by the code. -/
def unchangedWeight (df : List Row) : ℚ :=
  totalWeight df - winnersWeight df - losersWeight df

/-- The weighted population of rows that are neither winners nor losers
(`-1 ≤ income_change ≤ 1`); not computed by the code directly, used to
state that `unchangedWeight` is the remaining weighted share. -/
def middleWeight (df : List Row) : ℚ :=
  totalWeight (df.filter (fun r => -1 ≤ incomeChange r ∧ incomeChange r ≤ 1))

/-- The three `value` fields of the rows emitted by
`WinnersLosersCalculator.calculate`, in order
`winners_pct`, `losers_pct`, `unchanged_pct`. -/
def winnersLosersValues (df : List Row) : List PyFloat :=
  [ PyFloat.mul100 (PyFloat.qdiv (winnersWeight df) (totalWeight df)),
    PyFloat.mul100 (PyFloat.qdiv (losersWeight df) (totalWeight df)),
    PyFloat.mul100 (PyFloat.qdiv (unchangedWeight df) (totalWeight df)) ]

/-- One output row of `WinnersLosersCalculator.calculate`. -/
structure WLRow where
  reform_id : String
  reform_name : String
  year : ℤ
  metric : String
  value : PyFloat
  deriving DecidableEq, Repr

/-- Source `WinnersLosersCalculator.calculate`. -/
def winnersLosersCalculate (df : List Row) (reform_id reform_name : String)
    (year : ℤ) : List WLRow :=
  [ ⟨reform_id, reform_name, year, "winners_pct",
      PyFloat.mul100 (PyFloat.qdiv (winnersWeight df) (totalWeight df))⟩,
    ⟨reform_id, reform_name, year, "losers_pct",
      PyFloat.mul100 (PyFloat.qdiv (losersWeight df) (totalWeight df))⟩,
    ⟨reform_id, reform_name, year, "unchanged_pct",
      PyFloat.mul100 (PyFloat.qdiv (unchangedWeight df) (totalWeight df))⟩ ]

theorem winnersLosersCalculate_values (df : List Row) (i n : String) (y : ℤ) :
    (winnersLosersCalculate df i n y).map WLRow.value = winnersLosersValues df := by
  simp [winnersLosersCalculate, winnersLosersValues]

/-- The three classifying predicates partition the total weight. -/
theorem weight_partition (df : List Row) :
    winnersWeight df + losersWeight df + middleWeight df = totalWeight df := by
  induction df with
  | nil => simp [winnersWeight, losersWeight, middleWeight, totalWeight]
  | cons r rest ih =>
      by_cases hw : 1 < incomeChange r
      · have hl : ¬ incomeChange r < -1 := by linarith
        have hm : ¬ (-1 ≤ incomeChange r ∧ incomeChange r ≤ 1) := by
          rintro ⟨-, h2⟩; linarith
        simp only [winnersWeight, losersWeight, middleWeight, totalWeight,
          List.filter_cons] at *
        simp only [decide_eq_true_eq] at *
        rw [if_pos hw, if_neg hl, if_neg hm]
        simp only [List.map_cons, List.sum_cons]
        linarith [ih]
      · by_cases hl : incomeChange r < -1
        · have hm : ¬ (-1 ≤ incomeChange r ∧ incomeChange r ≤ 1) := by
            rintro ⟨h1, -⟩; linarith
          simp only [winnersWeight, losersWeight, middleWeight, totalWeight,
            List.filter_cons] at *
          simp only [decide_eq_true_eq] at *
          rw [if_neg hw, if_pos hl, if_neg hm]
          simp only [List.map_cons, List.sum_cons]
          linarith [ih]
        · have hm : -1 ≤ incomeChange r ∧ incomeChange r ≤ 1 := by
            constructor <;> linarith
          simp only [winnersWeight, losersWeight, middleWeight, totalWeight,
            List.filter_cons] at *
          simp only [decide_eq_true_eq] at *
          rw [if_neg hw, if_neg hl, if_pos hm]
          simp only [List.map_cons, List.sum_cons]
          linarith [ih]

/-- Mutual exclusivity of the three classifying predicates on any row. -/
theorem classes_mutually_exclusive (r : Row) :
    (¬ (1 < incomeChange r ∧ incomeChange r < -1)) ∧
    (¬ (1 < incomeChange r ∧ (-1 ≤ incomeChange r ∧ incomeChange r ≤ 1))) ∧
    (¬ (incomeChange r < -1 ∧ (-1 ≤ incomeChange r ∧ incomeChange r ≤ 1))) := by
  refine ⟨?_, ?_, ?_⟩
  · rintro ⟨h1, h2⟩; linarith
  · rintro ⟨h1, -, h2⟩; linarith
  · rintro ⟨h1, h2, -⟩; linarith

/-- C1: For every decile DataFrame with positive total household weight,
the three rows emitted by `WinnersLosersCalculator.calculate` partition the
total weight: the winner/loser/unchanged classes are mutually exclusive
and exhaustive (so the `unchanged` weight computed by subtraction equals
the weighted share of rows with `-1 ≤ income_change ≤ 1`), all three
percentages are finite, and they sum to exactly 100 (hence to 100 within
±0.5). -/
theorem winners_losers_partition_sums_to_100
    (df : List Row) (i n : String) (y : ℤ) (h : 0 < totalWeight df) :
    unchangedWeight df = middleWeight df ∧
    winnersWeight df + losersWeight df + middleWeight df = totalWeight df ∧
    (∀ r ∈ df, ¬ (1 < incomeChange r ∧ incomeChange r < -1)) ∧
    ∃ wp lp up : ℚ,
      (winnersLosersCalculate df i n y).map WLRow.value =
        [PyFloat.fin wp, PyFloat.fin lp, PyFloat.fin up] ∧
      wp + lp + up = 100 ∧ |wp + lp + up - 100| ≤ 1/2 := by
  have hpart := weight_partition df
  have ht : totalWeight df ≠ 0 := ne_of_gt h
  refine ⟨by unfold unchangedWeight; linarith, hpart, ?_, ?_⟩
  · intro r _
    rintro ⟨h1, h2⟩; linarith
  · refine ⟨winnersWeight df / totalWeight df * 100,
      losersWeight df / totalWeight df * 100,
      unchangedWeight df / totalWeight df * 100, ?_, ?_, ?_⟩
    · rw [winnersLosersCalculate_values]
      simp [winnersLosersValues, PyFloat.qdiv_of_ne_zero _ ht, PyFloat.mul100]
    · have : winnersWeight df + losersWeight df + unchangedWeight df = totalWeight df := by
        unfold unchangedWeight; ring
      field_simp
      linarith
    · have : winnersWeight df / totalWeight df * 100 + losersWeight df / totalWeight df * 100 +
          unchangedWeight df / totalWeight df * 100 = 100 := by
        have : winnersWeight df + losersWeight df + unchangedWeight df = totalWeight df := by
          unfold unchangedWeight; ring
        field_simp
        linarith
      rw [this]
      norm_num

/-- Witness for `winners_losers_partition_sums_to_100` at a concrete
three-row frame with weights 2, 3, 5. -/
theorem winners_losers_partition_witness :
    0 < totalWeight [⟨100, 110, 2, 1⟩, ⟨100, 90, 3, 2⟩, ⟨100, 100, 5, 3⟩] ∧
    (unchangedWeight [⟨100, 110, 2, 1⟩, ⟨100, 90, 3, 2⟩, ⟨100, 100, 5, 3⟩] =
      middleWeight [⟨100, 110, 2, 1⟩, ⟨100, 90, 3, 2⟩, ⟨100, 100, 5, 3⟩]) := by
  have h : 0 < totalWeight [⟨100, 110, 2, 1⟩, ⟨100, 90, 3, 2⟩, ⟨100, 100, 5, 3⟩] := by
    norm_num [totalWeight]
  exact ⟨h, (winners_losers_partition_sums_to_100
    [⟨100, 110, 2, 1⟩, ⟨100, 90, 3, 2⟩, ⟨100, 100, 5, 3⟩] "r" "n" 2026 h).1⟩

/-!
## DistributionalImpactCalculator

For each decile 1..10 the code takes the subframe with that (clipped)
decile value, skips it if empty, and otherwise computes
  `avg_change   = (Δ · w).sum() / w.sum()`
  `avg_baseline = (baseline · w).sum() / w.sum()`
  `relative_change = (avg_change / avg_baseline) * 100 if avg_baseline > 0 else 0`
then appends an "All" row computed by the same formulas over the whole
(ungrouped) frame.
-/

/-- Source `decile_labels[decile - 1]` for deciles 1..10. -/
def decileLabel (d : ℤ) : String :=
  if d = 1 then "1st" else if d = 2 then "2nd" else if d = 3 then "3rd"
  else if d = 4 then "4th" else if d = 5 then "5th" else if d = 6 then "6th"
  else if d = 7 then "7th" else if d = 8 then "8th" else if d = 9 then "9th"
  else "10th"

/-- Source `df[df["income_decile"] == decile]` (after the clip-and-cast). -/
def decileGroup (df : List Row) (d : ℤ) : List Row :=
  df.filter (fun r => clipDecile r.income_decile = d)

/-- The float `avg_change` of a (sub)frame: weighted change sum over weight
sum (NaN/±inf when the weight sum is 0). -/
def avgChange (g : List Row) : PyFloat :=
  PyFloat.qdiv (wsum incomeChange g) (totalWeight g)

/-- The float `avg_baseline` of a (sub)frame. -/
def avgBaseline (g : List Row) : PyFloat :=
  PyFloat.qdiv (wsum (fun r => r.baseline_income) g) (totalWeight g)

/-- Source `relative_change = (avg_change / avg_baseline) * 100 if avg_baseline > 0
else 0`, for a (sub)frame. -/
def relativeChange (g : List Row) : PyFloat :=
  if PyFloat.gt0 (avgBaseline g) then
    PyFloat.mul100 (PyFloat.div (avgChange g) (avgBaseline g))
  else PyFloat.fin 0

/-- One output row of `DistributionalImpactCalculator.calculate`. -/
structure DRow where
  reform_id : String
  reform_name : String
  year : ℤ
  decile : String
  value : PyFloat
  absolute_change : PyFloat
  deriving DecidableEq, Repr

/-- The row emitted for one decile, or `none` when the decile subframe is
empty (the code does `continue`). -/
def decileRow (df : List Row) (reform_id reform_name : String) (year : ℤ)
    (d : ℤ) : Option DRow :=
  if (decileGroup df d).isEmpty then none
  else some ⟨reform_id, reform_name, year, decileLabel d,
    relativeChange (decileGroup df d), avgChange (decileGroup df d)⟩

/-- The trailing "All" row. -/
def allRow (df : List Row) (reform_id reform_name : String) (year : ℤ) : DRow :=
  ⟨reform_id, reform_name, year, "All", relativeChange df, avgChange df⟩

/-- Source `DistributionalImpactCalculator.calculate`: the per-decile rows for
deciles 1..10 (empty deciles skipped) followed by the "All" row. -/
def distributionalRows (df : List Row) (reform_id reform_name : String)
    (year : ℤ) : List DRow :=
  (([1, 2, 3, 4, 5, 6, 7, 8, 9, 10] : List ℤ).filterMap
    (decileRow df reform_id reform_name year)) ++
  [allRow df reform_id reform_name year]

/-- The ungrouped weighted mean of the baseline incomes, as an exact
rational (meaningful when the total weight is nonzero). -/
def wmeanBaseline (df : List Row) : ℚ :=
  wsum (fun r => r.baseline_income) df / totalWeight df

/-- The ungrouped weighted mean of the income changes, as an exact rational. -/
def wmeanChange (df : List Row) : ℚ :=
  wsum incomeChange df / totalWeight df

/-- Stated from the specification's words: the "All" relative-change value
is the weighted mean income change over the whole ungrouped sample divided
by the ungrouped weighted mean baseline income, times 100. -/
def specAllRelativeChange (df : List Row) : ℚ :=
  wmeanChange df / wmeanBaseline df * 100

theorem getLast?_append_singleton {α : Type} (l : List α) (a : α) :
    (l ++ [a]).getLast? = some a := by
  exact List.getLast?_concat _

/-- The finite part of a `PyFloat` (0 on non-finite values). -/
def finPart : PyFloat → ℚ
  | PyFloat.fin q => q
  | _ => 0

/-- The per-decile `value` fields emitted by
`DistributionalImpactCalculator.calculate` (everything except the trailing
"All" row), as rationals. -/
def decileValues (df : List Row) : List ℚ :=
  (distributionalRows df "" "" 0).dropLast.map (fun r => finPart r.value)

/-- A concrete frame covering all ten deciles: decile 1 holds one row of
weight 3 gaining 4, the other deciles hold one unchanged row of weight 1. -/
def exampleFrame : List Row :=
  [⟨100, 104, 3, 1⟩, ⟨100, 100, 1, 2⟩, ⟨100, 100, 1, 3⟩, ⟨100, 100, 1, 4⟩,
   ⟨100, 100, 1, 5⟩, ⟨100, 100, 1, 6⟩, ⟨100, 100, 1, 7⟩, ⟨100, 100, 1, 8⟩,
   ⟨100, 100, 1, 9⟩, ⟨100, 100, 1, 10⟩]

/-- C2: For every reform and year, the "All" row appended by
`DistributionalImpactCalculator.calculate` (the last row of its output) has
value equal to the ungrouped weighted mean income change divided by the
ungrouped weighted mean baseline income, times 100 — and it is not, in
general, the arithmetic mean of the ten per-decile values, witnessed by
`exampleFrame`, whose ten decile values average 2/5 while its "All" value
is 1. -/
theorem all_row_uses_ungrouped_weighted_means :
    (∀ (df : List Row) (i n : String) (y : ℤ),
      0 < totalWeight df → 0 < wmeanBaseline df →
      ((distributionalRows df i n y).getLast?).map DRow.value =
        some (PyFloat.fin (specAllRelativeChange df))) ∧
    relativeChange exampleFrame ≠
      PyFloat.fin ((decileValues exampleFrame).sum / 10) := by
  constructor
  · intro df i n y ht hb
    have htne : totalWeight df ≠ 0 := ne_of_gt ht
    have hbne : wmeanBaseline df ≠ 0 := ne_of_gt hb
    rw [distributionalRows, getLast?_append_singleton]
    have hab : avgBaseline df = PyFloat.fin (wmeanBaseline df) := by
      rw [avgBaseline, PyFloat.qdiv_of_ne_zero _ htne]; rfl
    have hac : avgChange df = PyFloat.fin (wmeanChange df) := by
      rw [avgChange, PyFloat.qdiv_of_ne_zero _ htne]; rfl
    have : relativeChange df = PyFloat.fin (specAllRelativeChange df) := by
      rw [relativeChange, hab, hac]
      rw [if_pos (by simp [PyFloat.gt0, hb])]
      rw [PyFloat.div, PyFloat.qdiv_of_ne_zero _ hbne]
      rfl
    simp [allRow, this]
  · norm_num [relativeChange, avgBaseline, avgChange, exampleFrame, wsum,
      totalWeight, decileValues, distributionalRows, decileRow, decileGroup,
      clipDecile, PyFloat.qdiv, PyFloat.gt0, PyFloat.div, PyFloat.mul100,
      finPart, incomeChange, List.filter, List.filterMap_cons, decileLabel,
      allRow]

theorem wsum_eq_zero_of_all_zero {f : Row → ℚ} {g : List Row}
    (h : ∀ r ∈ g, f r = 0) : wsum f g = 0 := by
  unfold wsum
  apply List.sum_eq_zero
  intro x hx
  rcases List.mem_map.mp hx with ⟨r, hr, rfl⟩
  rw [h r hr, zero_mul]

theorem relativeChange_of_zero_change {g : List Row}
    (h0 : wsum incomeChange g = 0) (ht : totalWeight g ≠ 0) :
    relativeChange g = PyFloat.fin 0 ∧ avgChange g = PyFloat.fin 0 := by
  have hac : avgChange g = PyFloat.fin 0 := by
    rw [avgChange, h0, PyFloat.qdiv_of_ne_zero _ ht, zero_div]
  have hab : avgBaseline g =
      PyFloat.fin (wsum (fun r => r.baseline_income) g / totalWeight g) := by
    rw [avgBaseline, PyFloat.qdiv_of_ne_zero _ ht]
  refine ⟨?_, hac⟩
  rw [relativeChange, hac, hab]
  by_cases hb : 0 < wsum (fun r => r.baseline_income) g / totalWeight g
  · rw [if_pos (by simp [PyFloat.gt0, hb])]
    rw [PyFloat.div, PyFloat.qdiv_of_ne_zero _ (ne_of_gt hb), zero_div,
      PyFloat.mul100, zero_mul]
  · rw [if_neg (by simp [PyFloat.gt0, hb])]

/-- C7, amended: When the reformed incomes equal the baseline incomes
(the identity reform) and the total weight — as well as the weight of every
non-empty decile group — is positive, every row of
`DistributionalImpactCalculator.calculate` has `value` 0 and
`absolute_change` 0, and `WinnersLosersCalculator.calculate` reports
winners 0 %, losers 0 % and unchanged 100 %.  (The positivity hypotheses
are necessary: see `identity_reform_zero_weight_nan`.) -/
theorem identity_reform_all_zero_deltas
    (df : List Row) (i n : String) (y : ℤ)
    (hid : ∀ r ∈ df, r.reformed_income = r.baseline_income)
    (ht : 0 < totalWeight df)
    (hg : ∀ d : ℤ, decileGroup df d ≠ [] → 0 < totalWeight (decileGroup df d)) :
    (∀ row ∈ distributionalRows df i n y,
      row.value = PyFloat.fin 0 ∧ row.absolute_change = PyFloat.fin 0) ∧
    (winnersLosersCalculate df i n y).map WLRow.value =
      [PyFloat.fin 0, PyFloat.fin 0, PyFloat.fin 100] := by
  have hch : ∀ r ∈ df, incomeChange r = 0 := by
    intro r hr
    rw [incomeChange, hid r hr, sub_self]
  constructor
  · intro row hrow
    rcases List.mem_append.mp hrow with hdec | hall
    · rcases List.mem_filterMap.mp hdec with ⟨d, -, hd⟩
      rw [decileRow] at hd
      by_cases hemp : (decileGroup df d).isEmpty
      · rw [if_pos hemp] at hd; exact absurd hd (by simp)
      · rw [if_neg hemp] at hd
        have hne : decileGroup df d ≠ [] := by
          simpa [List.isEmpty_iff] using hemp
        have htw : totalWeight (decileGroup df d) ≠ 0 :=
          ne_of_gt (hg d hne)
        have h0 : wsum incomeChange (decileGroup df d) = 0 := by
          apply wsum_eq_zero_of_all_zero
          intro r hr
          exact hch r (List.mem_of_mem_filter hr)
        rcases relativeChange_of_zero_change h0 htw with ⟨hrel, habs⟩
        cases hd
        exact ⟨hrel, habs⟩
    · have : row = allRow df i n y := by simpa using hall
      subst this
      have h0 : wsum incomeChange df = 0 := wsum_eq_zero_of_all_zero hch
      rcases relativeChange_of_zero_change h0 (ne_of_gt ht) with ⟨hrel, habs⟩
      exact ⟨hrel, habs⟩
  · have hw : winnersWeight df = 0 := by
      rw [winnersWeight]
      have : df.filter (fun r => 1 < incomeChange r) = [] := by
        apply List.filter_eq_nil_iff.mpr
        intro r hr
        simp [hch r hr]
      rw [this]; rfl
    have hl : losersWeight df = 0 := by
      rw [losersWeight]
      have : df.filter (fun r => incomeChange r < -1) = [] := by
        apply List.filter_eq_nil_iff.mpr
        intro r hr
        simp [hch r hr]
      rw [this]; rfl
    have hu : unchangedWeight df = totalWeight df := by
      rw [unchangedWeight, hw, hl]; ring
    have htne : totalWeight df ≠ 0 := ne_of_gt ht
    rw [winnersLosersCalculate_values, winnersLosersValues, hw, hl, hu]
    rw [PyFloat.qdiv_of_ne_zero _ htne, PyFloat.qdiv_of_ne_zero _ htne,
      zero_div, div_self htne]
    simp [PyFloat.mul100]

/-- C7, counterexample to the claim as stated: A one-row frame with
household weight 0 in which the reformed income equals the baseline income:
the claim asserts winners 0 %, losers 0 % and unchanged 100 %, but the code
divides by the zero total weight and reports NaN for all three metrics. -/
theorem identity_reform_zero_weight_nan :
    (∀ r ∈ ([⟨100, 100, 0, 1⟩] : List Row),
      r.reformed_income = r.baseline_income) ∧
    (winnersLosersCalculate [⟨100, 100, 0, 1⟩] "i" "n" 2026).map WLRow.value =
      [PyFloat.nan, PyFloat.nan, PyFloat.nan] ∧
    (winnersLosersCalculate [⟨100, 100, 0, 1⟩] "i" "n" 2026).map WLRow.value ≠
      [PyFloat.fin 0, PyFloat.fin 0, PyFloat.fin 100] := by
  refine ⟨?_, ?_, ?_⟩
  · intro r hr
    rcases List.mem_singleton.mp hr with rfl
    rfl
  · norm_num [winnersLosersCalculate, winnersWeight, losersWeight,
      unchangedWeight, totalWeight, incomeChange, PyFloat.qdiv,
      PyFloat.mul100, List.filter]
  · norm_num [winnersLosersCalculate, winnersWeight, losersWeight,
      unchangedWeight, totalWeight, incomeChange, PyFloat.qdiv,
      PyFloat.mul100, List.filter]
    exact fun h => nomatch h

/-- Witness for `identity_reform_all_zero_deltas` at a concrete one-row
frame of weight 2 with reformed income equal to baseline income. -/
theorem identity_reform_all_zero_deltas_witness :
    (∀ row ∈ distributionalRows [⟨100, 100, 2, 1⟩] "i" "n" 2026,
      row.value = PyFloat.fin 0 ∧ row.absolute_change = PyFloat.fin 0) ∧
    (winnersLosersCalculate [⟨100, 100, 2, 1⟩] "i" "n" 2026).map WLRow.value =
      [PyFloat.fin 0, PyFloat.fin 0, PyFloat.fin 100] := by
  apply identity_reform_all_zero_deltas
  · intro r hr
    rcases List.mem_singleton.mp hr with rfl
    rfl
  · norm_num [totalWeight]
  · intro d hne
    by_cases hd : d = 1
    · subst hd
      have hgrp : decileGroup [(⟨100, 100, 2, 1⟩ : Row)] 1 =
          [(⟨100, 100, 2, 1⟩ : Row)] := by
        norm_num [decileGroup, clipDecile, List.filter]
      rw [hgrp]
      norm_num [totalWeight]
    · exfalso
      apply hne
      have : clipDecile 1 ≠ d := by
        norm_num [clipDecile]
        omega
      simp [decileGroup, List.filter, this]

/-- Witness for `all_row_uses_ungrouped_weighted_means` at `exampleFrame`
(total weight 12, weighted mean baseline income 100). -/
theorem all_row_ungrouped_witness :
    0 < totalWeight exampleFrame ∧ 0 < wmeanBaseline exampleFrame ∧
    ((distributionalRows exampleFrame "combined" "All policies combined"
        2026).getLast?).map DRow.value =
      some (PyFloat.fin (specAllRelativeChange exampleFrame)) := by
  have h1 : 0 < totalWeight exampleFrame := by
    norm_num [totalWeight, exampleFrame]
  have h2 : 0 < wmeanBaseline exampleFrame := by
    norm_num [wmeanBaseline, wsum, totalWeight, exampleFrame]
  exact ⟨h1, h2,
    all_row_uses_ungrouped_weighted_means.1 exampleFrame _ _ _ h1 h2⟩

/-!
## ConstituencyCalculator

`calculate` iterates over the constituency table with the positional index
`idx`, skips any constituency with `idx >= weights.shape[0]`, and for the
rest computes the weighted mean baseline and reform incomes using row
`idx` of the externally supplied constituency-by-household weight matrix.
`MicroSeries(values, weights).mean()` (from the external `microdf`
dependency) is the weighted sum divided by the weight sum, with numpy
float semantics at a zero weight sum.
-/

/-- Source `MicroSeries(values, weights).mean()`: weighted sum over weight sum. -/
def msMean (values weights : List ℚ) : PyFloat :=
  PyFloat.qdiv (((values.zip weights).map (fun p => p.1 * p.2)).sum)
    weights.sum

/-- One output row of `ConstituencyCalculator.calculate`. -/
structure CRow where
  reform_id : String
  year : ℤ
  constituency_code : String
  constituency_name : String
  average_gain : PyFloat
  relative_change : PyFloat
  deriving DecidableEq, Repr

/-- Source `avg_gain = avg_reform - avg_baseline` for one constituency. -/
def constituencyGain (baseline_income reform_income cw : List ℚ) : PyFloat :=
  PyFloat.sub (msMean reform_income cw) (msMean baseline_income cw)

/-- The row built for one constituency:
`relative_change = (avg_gain / avg_baseline) * 100 if avg_baseline > 0 else 0`. -/
def constituencyRow (baseline_income reform_income : List ℚ)
    (reform_id : String) (year : ℤ) (cw : List ℚ)
    (code name : String) : CRow :=
  ⟨reform_id, year, code, name,
    constituencyGain baseline_income reform_income cw,
    if PyFloat.gt0 (msMean baseline_income cw) then
      PyFloat.mul100 (PyFloat.div
        (constituencyGain baseline_income reform_income cw)
        (msMean baseline_income cw))
    else PyFloat.fin 0⟩

/-- The `for idx, (_, row) in enumerate(constituency_df.iterrows())` loop:
`idx >= weights.shape[0]` is skipped by `continue`. -/
def constituencyAux (baseline_income reform_income : List ℚ)
    (reform_id : String) (year : ℤ) (weights : List (List ℚ)) :
    ℕ → List (String × String) → List CRow
  | _, [] => []
  | idx, c :: rest =>
      match weights.get? idx with
      | some cw =>
          constituencyRow baseline_income reform_income reform_id year cw
            c.1 c.2 ::
          constituencyAux baseline_income reform_income reform_id year
            weights (idx + 1) rest
      | none =>
          constituencyAux baseline_income reform_income reform_id year
            weights (idx + 1) rest

/-- Source `ConstituencyCalculator.calculate`: the constituency table is a list of
`(code, name)` pairs, the weight matrix a list of per-household weight
rows. -/
def constituencyCalculate (baseline_income reform_income : List ℚ)
    (reform_id : String) (year : ℤ) (weights : List (List ℚ))
    (constituency_df : List (String × String)) : List CRow :=
  constituencyAux baseline_income reform_income reform_id year weights 0
    constituency_df

/-- C3, counterexample to the claim as stated: With zero eligible
population (an empty Scotland-filtered frame), the claim says every
reported value is exactly 0 — but `WinnersLosersCalculator.calculate`
divides the class weights by the zero total weight and reports NaN for all
three percentages, and the "All" row's `absolute_change` is NaN as well. -/
theorem zero_population_reports_nan :
    (winnersLosersCalculate [] "i" "n" 2026).map WLRow.value =
      [PyFloat.nan, PyFloat.nan, PyFloat.nan] ∧
    (allRow [] "i" "n" 2026).absolute_change = PyFloat.nan ∧
    PyFloat.nan ≠ PyFloat.fin 0 := by
  refine ⟨?_, ?_, fun h => nomatch h⟩
  · norm_num [winnersLosersCalculate, winnersWeight, losersWeight,
      unchangedWeight, totalWeight, List.filter, PyFloat.qdiv,
      PyFloat.mul100]
  · norm_num [allRow, avgChange, wsum, totalWeight, PyFloat.qdiv]

/-- C3, amended: The ratio-to-baseline divisions are guarded: whenever
the baseline weighted mean is not greater than 0 (zero, negative, or the
NaN arising from an empty group, where the Python comparison `> 0` is
`False`), `DistributionalImpactCalculator` reports `relative_change = 0`
for the group and `ConstituencyCalculator` reports `relative_change = 0`
for the constituency; in particular an empty group with zero weight and
baseline sums gets value 0.  (The unguarded divisions by the total weight
are *not* 0 in the degenerate case: see `zero_population_reports_nan`.) -/
theorem degenerate_baseline_ratio_guards :
    (∀ g : List Row, PyFloat.gt0 (avgBaseline g) = false →
      relativeChange g = PyFloat.fin 0) ∧
    (∀ (baseline_income reform_income cw : List ℚ) (i : String) (y : ℤ)
      (code name : String), PyFloat.gt0 (msMean baseline_income cw) = false →
      (constituencyRow baseline_income reform_income i y cw
        code name).relative_change = PyFloat.fin 0) ∧
    (∀ g : List Row, totalWeight g = 0 →
      wsum (fun r => r.baseline_income) g = 0 →
      relativeChange g = PyFloat.fin 0) := by
  have hguard : ∀ g : List Row, PyFloat.gt0 (avgBaseline g) = false →
      relativeChange g = PyFloat.fin 0 := by
    intro g h
    rw [relativeChange, if_neg (by simp [h])]
  refine ⟨hguard, ?_, ?_⟩
  · intro b r cw i y code name h
    rw [constituencyRow]
    simp only [if_neg (by simp [h] : ¬ PyFloat.gt0 (msMean b cw) = true)]
  · intro g ht hb
    apply hguard
    rw [avgBaseline, ht, hb, PyFloat.qdiv_zero_zero]
    rfl

/-- Witness for `degenerate_baseline_ratio_guards`: a one-row frame with
negative baseline income (guard taken in the distributional calculator)
and a constituency with all-zero allocation weights (NaN baseline mean,
guard taken in the constituency calculator). -/
theorem degenerate_baseline_ratio_guards_witness :
    relativeChange [⟨-5, 10, 1, 1⟩] = PyFloat.fin 0 ∧
    (constituencyRow [7] [9] "i" 2026 [0] "c"
      "n").relative_change = PyFloat.fin 0 ∧
    relativeChange [] = PyFloat.fin 0 := by
  refine ⟨?_, ?_, ?_⟩
  · apply degenerate_baseline_ratio_guards.1
    norm_num [avgBaseline, wsum, totalWeight, PyFloat.qdiv, PyFloat.gt0]
  · apply degenerate_baseline_ratio_guards.2.1
    norm_num [msMean, PyFloat.qdiv, PyFloat.gt0]
  · apply degenerate_baseline_ratio_guards.2.2 <;>
      norm_num [totalWeight, wsum]

theorem constituencyAux_length (b r : List ℚ) (i : String) (y : ℤ)
    (W : List (List ℚ)) :
    ∀ (df : List (String × String)) (idx : ℕ),
      (constituencyAux b r i y W idx df).length =
        min df.length (W.length - idx) := by
  intro df
  induction df with
  | nil => intro idx; simp [constituencyAux]
  | cons c rest ih =>
      intro idx
      rw [constituencyAux]
      cases hW : W.get? idx with
      | some cw =>
          have hidx : idx < W.length := (List.get?_eq_some.mp hW).1
          simp only [List.length_cons, ih (idx + 1)]
          omega
      | none =>
          have hidx : W.length ≤ idx := List.get?_eq_none.mp hW
          simp only [List.length_cons, ih (idx + 1)]
          omega

theorem constituencyAux_get? (b r : List ℚ) (i : String) (y : ℤ)
    (W : List (List ℚ)) :
    ∀ (df : List (String × String)) (idx j : ℕ),
      (constituencyAux b r i y W idx df).get? j =
        (df.get? j).bind (fun c => (W.get? (idx + j)).map
          (fun cw => constituencyRow b r i y cw c.1 c.2)) := by
  intro df
  induction df with
  | nil => intro idx j; simp [constituencyAux]
  | cons c rest ih =>
      intro idx j
      rw [constituencyAux]
      cases hW : W.get? idx with
      | some cw =>
          cases j with
          | zero =>
              rw [List.get?_cons_zero, List.get?_cons_zero, Nat.add_zero, hW]
              rfl
          | succ j =>
              rw [List.get?_cons_succ, List.get?_cons_succ, ih (idx + 1) j,
                show idx + 1 + j = idx + (j + 1) by omega]
      | none =>
          have hidx : W.length ≤ idx := List.get?_eq_none.mp hW
          cases j with
          | zero =>
              show (constituencyAux b r i y W (idx + 1) rest).get? 0 = _
              rw [ih (idx + 1) 0, List.get?_cons_zero]
              simp only [Nat.add_zero, hW,
                List.get?_eq_none.mpr (show W.length ≤ idx + 1 + 0 by omega)]
              simp
          | succ j =>
              show (constituencyAux b r i y W (idx + 1) rest).get? (j + 1) = _
              rw [ih (idx + 1) (j + 1), List.get?_cons_succ]
              simp only [
                List.get?_eq_none.mpr (show W.length ≤ idx + 1 + (j + 1) by omega),
                List.get?_eq_none.mpr (show W.length ≤ idx + (j + 1) by omega)]
              simp

/-- C10: `ConstituencyCalculator.calculate` never fails when the
constituency table has more rows than the weight matrix: position `j` of
the result corresponds to position `j` of the table paired with row `j` of
the matrix, any constituency whose positional index reaches beyond the
matrix is silently skipped (it contributes `none`), and the result has
exactly one row per constituency with positional index below the matrix's
row count. -/
theorem constituency_rows_skip_out_of_range
    (baseline_income reform_income : List ℚ) (i : String) (y : ℤ)
    (weights : List (List ℚ)) (constituency_df : List (String × String)) :
    (constituencyCalculate baseline_income reform_income i y weights
        constituency_df).length = min constituency_df.length weights.length ∧
    ∀ j : ℕ,
      (constituencyCalculate baseline_income reform_income i y weights
          constituency_df).get? j =
        (constituency_df.get? j).bind (fun c => (weights.get? j).map
          (fun cw => constituencyRow baseline_income reform_income i y cw
            c.1 c.2)) := by
  constructor
  · rw [constituencyCalculate, constituencyAux_length]
    omega
  · intro j
    rw [constituencyCalculate, constituencyAux_get?]
    simp

/-!
## BudgetaryImpactCalculator

`calculate(baseline, reformed, reform_id, reform_name)` loops over the
configured years and branches on `reform_id`:

* `"scp_baby_boost"`: `calculate_scp_baby_boost_cost(Microsimulation(), year)`
  — a fresh default simulation, the argument simulations are not read;
* `"combined"`: the SCP baby-boost cost plus the income-tax threshold
  uplift cost, both from fresh per-year simulations;
* `"income_tax_threshold_uplift"`: the income-tax uplift cost from fresh
  per-year simulations;
* otherwise: fresh simulations, the reformed template's `scenario` being
  the only thing read from the arguments.

The helpers `calculate_scp_baby_boost_cost` and `_income_tax_modifier` are
imported from `scottish_budget_data.reforms` but are not present in the
repository snapshot, and the microsimulation engine itself is an external
library; both are modelled as an abstract environment of deterministic
per-year cost functions (deterministic because each branch constructs the
same fresh simulations from the same ambient survey data).
-/

/-- A simulation instance; only its scenario is ever read by the
budgetary calculator, so it is modelled as an opaque scenario token. -/
structure Microsimulation where
  scenario : ℕ
  deriving DecidableEq, Repr

/-- Modelled from the spec: the missing `calculate_scp_baby_boost_cost`
and `_income_tax_modifier` helpers and the engine's cost evaluations, as
deterministic per-year cost functions (§4.3: cost = Σ over the Scotland
filter of reform income minus baseline income, per year). -/
structure BudgetEnv where
  scpCost : ℤ → ℚ
  taxCost : ℤ → ℚ
  genericCost : ℕ → ℤ → ℚ

/-- The per-year cost (in £) computed inside the loop of
`BudgetaryImpactCalculator.calculate`. -/
def budgetaryCost (env : BudgetEnv) (reformed : Microsimulation)
    (reform_id : String) (year : ℤ) : ℚ :=
  if reform_id = "scp_baby_boost" then env.scpCost year
  else if reform_id = "combined" then env.scpCost year + env.taxCost year
  else if reform_id = "income_tax_threshold_uplift" then env.taxCost year
  else env.genericCost reformed.scenario year

/-- One output row of `BudgetaryImpactCalculator.calculate`
(`value` is the cost in £ millions). -/
structure BRow where
  reform_id : String
  reform_name : String
  year : ℤ
  value : ℚ
  deriving DecidableEq, Repr

/-- Source `BudgetaryImpactCalculator.calculate`. -/
def budgetaryCalculate (env : BudgetEnv)
    (baseline reformed : Microsimulation) (reform_id reform_name : String)
    (years : List ℤ) : List BRow :=
  years.map (fun year =>
    ⟨reform_id, reform_name, year,
      budgetaryCost env reformed reform_id year / 1000000⟩)

/-- The `value` of the first row of a budgetary result (0 if empty). -/
def headValue (rows : List BRow) : ℚ :=
  ((rows.head?).map BRow.value).getD 0

/-- C4: For every year, the cost `BudgetaryImpactCalculator.calculate`
reports for the reform `"combined"` equals the sum of the costs it reports
for the constituent reforms `"scp_baby_boost"` and
`"income_tax_threshold_uplift"` — here exactly, hence a fortiori within
the claimed 10 % tolerance. -/
theorem combined_cost_equals_sum_of_components
    (env : BudgetEnv) (b r : Microsimulation) (n : String) (y : ℤ) :
    headValue (budgetaryCalculate env b r "combined" n [y]) =
      headValue (budgetaryCalculate env b r "scp_baby_boost" n [y]) +
      headValue (budgetaryCalculate env b r "income_tax_threshold_uplift" n [y]) ∧
    |headValue (budgetaryCalculate env b r "combined" n [y]) -
      (headValue (budgetaryCalculate env b r "scp_baby_boost" n [y]) +
       headValue (budgetaryCalculate env b r "income_tax_threshold_uplift" n [y]))| ≤
      (1 / 10) *
      |headValue (budgetaryCalculate env b r "scp_baby_boost" n [y]) +
       headValue (budgetaryCalculate env b r "income_tax_threshold_uplift" n [y])| := by
  have h : headValue (budgetaryCalculate env b r "combined" n [y]) =
      headValue (budgetaryCalculate env b r "scp_baby_boost" n [y]) +
      headValue (budgetaryCalculate env b r "income_tax_threshold_uplift" n [y]) := by
    simp [budgetaryCalculate, budgetaryCost, headValue]
    ring
  refine ⟨h, ?_⟩
  rw [h, sub_self, abs_zero]
  positivity

/-- C9: `BudgetaryImpactCalculator.calculate` never reads its baseline
and reformed simulation arguments when `reform_id` is `"scp_baby_boost"`,
`"combined"` or `"income_tax_threshold_uplift"`: for any two pairs of
argument simulations it returns identical rows. -/
theorem budgetary_result_ignores_simulation_args
    (env : BudgetEnv) (b₁ r₁ b₂ r₂ : Microsimulation)
    (reform_id reform_name : String) (years : List ℤ)
    (h : reform_id = "scp_baby_boost" ∨ reform_id = "combined" ∨
      reform_id = "income_tax_threshold_uplift") :
    budgetaryCalculate env b₁ r₁ reform_id reform_name years =
      budgetaryCalculate env b₂ r₂ reform_id reform_name years := by
  rcases h with h | h | h <;> subst h <;>
    simp [budgetaryCalculate, budgetaryCost]

/-- Witness for `budgetary_result_ignores_simulation_args` at a concrete
environment, four distinct simulations and `reform_id = "combined"`. -/
theorem budgetary_ignores_simulation_args_witness :
    budgetaryCalculate ⟨fun y => y, fun y => 2 * y, fun s y => s + y⟩
        ⟨0⟩ ⟨1⟩ "combined" "All policies combined" [2026, 2027] =
      budgetaryCalculate ⟨fun y => y, fun y => 2 * y, fun s y => s + y⟩
        ⟨2⟩ ⟨3⟩ "combined" "All policies combined" [2026, 2027] :=
  budgetary_result_ignores_simulation_args
    ⟨fun y => y, fun y => 2 * y, fun s y => s + y⟩
    ⟨0⟩ ⟨1⟩ ⟨2⟩ ⟨3⟩ "combined" "All policies combined" [2026, 2027]
    (Or.inr (Or.inl rfl))

/-!
## CLI (`cli.py`)

`main` first handles `--list-reforms` (prints the list and returns 0).
Otherwise, if `--reform` was given it computes
`unknown_ids = set(reform_ids) - set(available_ids)`; when non-empty it
prints the unknown ids and returns 1 without calling `generate_all_data`.
Otherwise it calls `generate_all_data` on the selected reforms: success
returns 0, `FileNotFoundError` returns 1, any other exception is
re-raised.  Argument parsing itself (argparse) is external glue; `main` is
modelled over the parsed namespace.
-/

/-- A reform definition (`reforms.ReformDefinition`); the `description`,
`explanation` and `apply_fn` fields play no role in the CLI logic and are
elided. -/
structure ReformDefinition where
  id : String
  name : String
  deriving DecidableEq, Repr

/-- Source `reforms.get_scottish_budget_reforms()`. -/
def get_scottish_budget_reforms : List ReformDefinition :=
  [ ⟨"combined", "All policies combined"⟩,
    ⟨"scp_inflation", "SCP inflation adjustment (£28.20/week)"⟩,
    ⟨"scp_baby_boost", "SCP Premium for under-ones (£40/week)"⟩,
    ⟨"income_tax_basic_uplift", "Basic rate threshold +7.4%"⟩,
    ⟨"income_tax_intermediate_uplift", "Intermediate rate threshold +7.4%"⟩,
    ⟨"higher_rate_freeze", "Higher rate threshold freeze"⟩,
    ⟨"advanced_rate_freeze", "Advanced rate threshold freeze"⟩,
    ⟨"top_rate_freeze", "Top rate threshold freeze"⟩ ]

/-- The available reform ids (`{r.id for r in reforms}`). -/
def availableIds : List String :=
  get_scottish_budget_reforms.map ReformDefinition.id

/-- The parsed CLI namespace (fields irrelevant to control flow elided). -/
structure ParsedArgs where
  list_reforms : Bool
  reform : Option (List String)
  years : List ℤ
  deriving DecidableEq, Repr

/-- Outcome of `generate_all_data` (an external call: it either returns,
raises `FileNotFoundError`, or raises some other exception). -/
inductive GenOutcome where
  | success
  | fileNotFound (msg : String)
  | otherError (msg : String)
  deriving DecidableEq, Repr

/-- The environment `main` runs in: what `generate_all_data` does for a
given selected reform list and years. -/
structure CliEnv where
  generate : List ReformDefinition → List ℤ → GenOutcome

/-- How `main` ends: `return code` or an exception propagating out
(`except Exception: raise`). -/
inductive MainOutcome where
  | exitCode (c : ℤ)
  | raised (msg : String)
  deriving DecidableEq, Repr

/-- The observable result of `main`: its outcome, whether
`generate_all_data` was invoked, and the unknown reform ids it reported
(empty when no unknown-id error was printed). -/
structure MainResult where
  outcome : MainOutcome
  generate_called : Bool
  reported_unknown : List String
  deriving DecidableEq, Repr

/-- The `try: generate_all_data(...) except ...` tail of `main`. -/
def runGenerate (env : CliEnv) (reforms : List ReformDefinition)
    (years : List ℤ) : MainResult :=
  match env.generate reforms years with
  | GenOutcome.success => ⟨MainOutcome.exitCode 0, true, []⟩
  | GenOutcome.fileNotFound _ => ⟨MainOutcome.exitCode 1, true, []⟩
  | GenOutcome.otherError m => ⟨MainOutcome.raised m, true, []⟩

/-- Source `cli.main` over the parsed arguments.  The unknown ids are modelled as
the deduplicated sublist of `--reform` ids outside `availableIds` (the
Python set difference, whose print order is unspecified). -/
def cliMain (env : CliEnv) (a : ParsedArgs) : MainResult :=
  if a.list_reforms then ⟨MainOutcome.exitCode 0, false, []⟩
  else
    match a.reform with
    | some ids =>
        if (ids.filter (fun i => i ∉ availableIds)).dedup = [] then
          runGenerate env
            (get_scottish_budget_reforms.filter (fun r => r.id ∈ ids))
            a.years
        else
          ⟨MainOutcome.exitCode 1, false,
            (ids.filter (fun i => i ∉ availableIds)).dedup⟩
    | none => runGenerate env get_scottish_budget_reforms a.years

/-- C8, counterexample to the claim as stated: The argument list
`--list-reforms --reform bogus` has a `--reform` option containing an
unknown id, yet `main` prints the reform list and returns 0 without
reporting anything and without invoking `generate_all_data`. -/
theorem unknown_reform_with_list_flag_exits_zero :
    ("bogus" ∉ availableIds) ∧
    cliMain ⟨fun _ _ => GenOutcome.success⟩
        ⟨true, some ["bogus"], [2026]⟩ =
      ⟨MainOutcome.exitCode 0, false, []⟩ := by
  constructor
  · simp [availableIds, get_scottish_budget_reforms]
  · rfl

/-- C8, amended: For every parsed argument list without
`--list-reforms` whose `--reform` option contains at least one unknown id,
`main` reports exactly the unknown ids, returns exit code 1, and
`generate_all_data` is never invoked; conversely, whenever `main` does
invoke `generate_all_data` (no `--list-reforms`, all requested ids known)
and it succeeds, `main` returns 0. -/
theorem unknown_reform_exits_one (env : CliEnv) (a : ParsedArgs)
    (ids : List String) (hl : a.list_reforms = false)
    (hr : a.reform = some ids) (hu : ∃ i ∈ ids, i ∉ availableIds) :
    (cliMain env a =
      ⟨MainOutcome.exitCode 1, false,
        (ids.filter (fun i => i ∉ availableIds)).dedup⟩ ∧
      ∀ i ∈ ids, i ∉ availableIds →
        i ∈ (cliMain env a).reported_unknown) ∧
    (∀ (a' : ParsedArgs) (ids' : List String), a'.list_reforms = false →
      a'.reform = some ids' → (∀ i ∈ ids', i ∈ availableIds) →
      env.generate
        (get_scottish_budget_reforms.filter (fun r => r.id ∈ ids'))
        a'.years = GenOutcome.success →
      cliMain env a' = ⟨MainOutcome.exitCode 0, true, []⟩) := by
  have hne : (ids.filter (fun i => i ∉ availableIds)).dedup ≠ [] := by
    rcases hu with ⟨i, hi, hni⟩
    intro hnil
    have : i ∈ (ids.filter (fun i => i ∉ availableIds)).dedup := by
      rw [List.mem_dedup, List.mem_filter]
      exact ⟨hi, by simpa using hni⟩
    rw [hnil] at this
    exact absurd this (List.not_mem_nil i)
  have hmain : cliMain env a =
      ⟨MainOutcome.exitCode 1, false,
        (ids.filter (fun i => i ∉ availableIds)).dedup⟩ := by
    rw [cliMain, if_neg (by simp [hl]), hr]
    simp only [if_neg hne]
  refine ⟨⟨hmain, ?_⟩, ?_⟩
  · intro i hi hni
    rw [hmain]
    show i ∈ (ids.filter (fun i => i ∉ availableIds)).dedup
    rw [List.mem_dedup, List.mem_filter]
    exact ⟨hi, by simpa using hni⟩
  · intro a' ids' hl' hr' hall hgen
    have hnil : (ids'.filter (fun i => i ∉ availableIds)).dedup = [] := by
      rw [List.dedup_eq_nil, List.filter_eq_nil_iff]
      intro i hi
      simpa using hall i hi
    rw [cliMain, if_neg (by simp [hl']), hr']
    simp only [if_pos hnil]
    rw [runGenerate, hgen]

/-- Witness for `unknown_reform_exits_one`: `--reform nope combined` with
a success-returning generator. -/
theorem unknown_reform_exits_one_witness :
    cliMain ⟨fun _ _ => GenOutcome.success⟩
        ⟨false, some ["nope", "combined"], [2026]⟩ =
      ⟨MainOutcome.exitCode 1, false, ["nope"]⟩ := by
  have h := (unknown_reform_exits_one ⟨fun _ _ => GenOutcome.success⟩
    ⟨false, some ["nope", "combined"], [2026]⟩ ["nope", "combined"] rfl rfl
    ⟨"nope", by norm_num, by simp [availableIds,
      get_scottish_budget_reforms]⟩).1.1
  rw [h]
  simp [availableIds, get_scottish_budget_reforms, List.filter,
    List.dedup]

/-!
## Mansion-tax constituency script
(`scotland-mansion-tax/analyze_scottish_parliament_constituencies.py`)

`calculate_wealth_adjusted_weights` groups constituencies by council; each
constituency contributes an adjusted value `population × wealth_factor`,
and within a council
`weight = adjusted_value / total_adjusted if total_adjusted > 0
          else 1 / len(constituencies)`.

`analyze_constituencies` computes the blended rate
`avg_rate = BAND_I_RATIO * BAND_I_SURCHARGE + BAND_J_RATIO * BAND_J_SURCHARGE`
and the total revenue `ESTIMATED_STOCK * avg_rate`.
-/

/-- Source `BAND_I_SURCHARGE = 1_500` (£/year for £1m-£2m properties). -/
def BAND_I_SURCHARGE : ℚ := 1500

/-- Source `BAND_J_SURCHARGE = 2_500` (£/year for £2m+ properties). -/
def BAND_J_SURCHARGE : ℚ := 2500

/-- Source `ESTIMATED_STOCK = 11_481` (£1m+ homes in Scotland, Savills). -/
def ESTIMATED_STOCK : ℚ := 11481

/-- Source name `BAND_I_RATIO`: `416 / 466` (share of £1m-£2m sales). -/
def bandIShare : ℚ := 416 / 466

/-- Source name `BAND_J_RATIO`: `50 / 466` (share of £2m+ sales). -/
def bandJShare : ℚ := 50 / 466

/-- Source `avg_rate` as computed in `analyze_constituencies`. -/
def avg_rate : ℚ := bandIShare * BAND_I_SURCHARGE + bandJShare * BAND_J_SURCHARGE

/-- Source `total_stock_revenue = ESTIMATED_STOCK * avg_rate`. -/
def total_stock_revenue : ℚ := ESTIMATED_STOCK * avg_rate

/-- The adjusted value of one constituency entry `(population, factor)`:
`adjusted_value = pop * wealth_factor`. -/
def adjustedValues (entries : List (ℚ × ℚ)) : List ℚ :=
  entries.map (fun e => e.1 * e.2)

/-- The normalized weights `calculate_wealth_adjusted_weights` assigns to
one council's constituencies, in order. -/
def councilConstituencyWeights (entries : List (ℚ × ℚ)) : List ℚ :=
  (adjustedValues entries).map (fun a =>
    if 0 < (adjustedValues entries).sum then a / (adjustedValues entries).sum
    else 1 / (entries.length : ℚ))

theorem map_const_eq_replicate {α β : Type} (l : List α) (c : β) :
    l.map (fun _ => c) = List.replicate l.length c := by
  induction l with
  | nil => rfl
  | cons a rest ih => simp [ih, List.replicate_succ]

theorem sum_map_div (l : List ℚ) (t : ℚ) :
    (l.map (fun a => a / t)).sum = l.sum / t := by
  induction l with
  | nil => simp
  | cons a rest ih => simp [ih, add_div]

/-- C5: For every non-empty council, the normalized weights
`calculate_wealth_adjusted_weights` assigns to its constituencies sum to
exactly 1 (hence to 1.0 within ±1e-9): when the council's total adjusted
value is positive each weight is `adjusted_value / total`, and when the
total is 0 each constituency receives the uniform fallback
`1 / len(constituencies)`, which also sums to 1. -/
theorem council_weights_sum_to_one (entries : List (ℚ × ℚ))
    (h : entries ≠ []) :
    (councilConstituencyWeights entries).sum = 1 ∧
    |(councilConstituencyWeights entries).sum - 1| ≤ 1 / 1000000000 ∧
    ((adjustedValues entries).sum = 0 →
      councilConstituencyWeights entries =
        List.replicate entries.length (1 / (entries.length : ℚ))) := by
  have hlen : (entries.length : ℚ) ≠ 0 :=
    Nat.cast_ne_zero.mpr (fun hh => h (List.length_eq_zero.mp hh))
  have hsum : (councilConstituencyWeights entries).sum = 1 := by
    rw [councilConstituencyWeights]
    by_cases hpos : 0 < (adjustedValues entries).sum
    · rw [List.map_congr_left (fun a _ => if_pos hpos), sum_map_div,
        div_self (ne_of_gt hpos)]
    · rw [List.map_congr_left (fun a _ => if_neg hpos)]
      have hrep : (adjustedValues entries).map
          (fun _ => 1 / (entries.length : ℚ)) =
          List.replicate entries.length (1 / (entries.length : ℚ)) := by
        rw [map_const_eq_replicate, adjustedValues, List.length_map]
      rw [hrep, List.sum_replicate, nsmul_eq_mul, mul_one_div,
        div_self hlen]
  refine ⟨hsum, by rw [hsum]; norm_num, ?_⟩
  intro h0
  rw [councilConstituencyWeights,
    List.map_congr_left (fun a _ => if_neg (by rw [h0]; exact lt_irrefl 0)),
    map_const_eq_replicate, adjustedValues, List.length_map]

/-- Witness for `council_weights_sum_to_one` at the two-constituency
council `[(100, 2), (300, 0)]` (positive total) — and, via the fallback
clause, its zero-total form is exercised by the hypothesis-free equality
below on `[(100, 0), (300, 0)]`. -/
theorem council_weights_sum_to_one_witness :
    (councilConstituencyWeights [(100, 2), (300, 0)]).sum = 1 ∧
    (councilConstituencyWeights [(100, 0), (300, 0)]).sum = 1 := by
  constructor
  · exact (council_weights_sum_to_one [(100, 2), (300, 0)] (by simp)).1
  · exact (council_weights_sum_to_one [(100, 0), (300, 0)] (by simp)).1

/-- C6: With stock 11481, Band I rate £1500 at share 416/466 and
Band J rate £2500 at share 50/466, the blended rate computed by
`analyze_constituencies` is within £0.5 of the claimed £1607
(`0.893×1500 + 0.107×2500`), and the total revenue
`ESTIMATED_STOCK * avg_rate` agrees with the claimed £18.45M to the
rounding policy of the nearest £0.1M (it differs by less than £0.05M). -/
theorem mansion_tax_blended_rate_and_revenue :
    avg_rate = 374500 / 233 ∧
    |avg_rate - (893 / 1000 * 1500 + 107 / 1000 * 2500)| ≤ 1 / 2 ∧
    total_stock_revenue = ESTIMATED_STOCK * avg_rate ∧
    |total_stock_revenue - 18450000| < 50000 := by
  refine ⟨?_, ?_, rfl, ?_⟩
  · norm_num [avg_rate, bandIShare, bandJShare, BAND_I_SURCHARGE,
      BAND_J_SURCHARGE]
  · rw [abs_sub_le_iff]
    constructor <;> norm_num [avg_rate, bandIShare, bandJShare,
      BAND_I_SURCHARGE, BAND_J_SURCHARGE]
  · rw [abs_sub_lt_iff]
    constructor <;> norm_num [total_stock_revenue, ESTIMATED_STOCK,
      avg_rate, bandIShare, bandJShare, BAND_I_SURCHARGE, BAND_J_SURCHARGE]
